import Mathlib

/-!
Shallow embedding of systemcheck.py, a terminal system monitor.

Conventions of the embedding:
- Python ints (byte counters) become Nat; differences of counters become Int.
- Python floats (timestamps, rates, scaled byte values) become Rat.  Every
  float operation relevant to the claims (subtraction of timestamps, division
  by 1024, comparison with 1024, division of counter deltas by elapsed time)
  is exact on the values the claims mention, so Rat is a faithful model there.
  Python float NaN only arises in this program as the substitute for an absent
  sensor value, so an absent-or-NaN sensor reading is modelled as Option.none
  and a finite reading as Option.some q.
- The mutable module globals (last_net_io, last_time_net,
  libre_hw_monitor_available, libre_hw_monitor_error) become explicit state
  threaded through the functions.
- Calls into psutil and LibreHardwareMonitor are modelled as input data: the
  hardware items the backend would enumerate, together with flags saying where
  the backend raises an exception.
-/

/-- Result of psutil.net_io_counters(): the cumulative byte counters used by
the script (the real named tuple has more fields; only these two are read). -/
structure NetCounters where
  bytes_sent : ℕ
  bytes_recv : ℕ
deriving DecidableEq

/-- The two module globals last_net_io and last_time_net that
get_network_speed reads and overwrites. -/
structure NetState where
  last_net_io : NetCounters
  last_time_net : ℚ
deriving DecidableEq

/-- Embedding of get_network_speed (systemcheck.py lines 59-79).  The psutil
sample and the clock reading are inputs; the globals are explicit state.
Returns ((upload_speed, download_speed, total_sent, total_recv), new state). -/
def get_network_speed (st : NetState) (current_net_io : NetCounters)
    (current_time : ℚ) : (ℚ × ℚ × ℕ × ℕ) × NetState :=
  let elapsed_time := current_time - st.last_time_net
  if elapsed_time = 0 then
    ((0, 0, current_net_io.bytes_sent, current_net_io.bytes_recv), st)
  else
    let bytes_sent_diff : ℤ :=
      (current_net_io.bytes_sent : ℤ) - (st.last_net_io.bytes_sent : ℤ)
    let bytes_recv_diff : ℤ :=
      (current_net_io.bytes_recv : ℤ) - (st.last_net_io.bytes_recv : ℤ)
    (((bytes_sent_diff : ℚ) / elapsed_time, (bytes_recv_diff : ℚ) / elapsed_time,
      current_net_io.bytes_sent, current_net_io.bytes_recv),
     NetState.mk current_net_io current_time)

/-- Render a natural number scaled by 10 to the d with d digits after the
decimal point, as Python str formatting of a nonnegative fixed value does. -/
def natFixedString (d : ℕ) (n : ℕ) : String :=
  let ip := n / 10 ^ d
  let fp := n % 10 ^ d
  let fpStr := toString fp
  let pad := String.mk (List.replicate (d - fpStr.length) (Char.ofNat 48))
  if d = 0 then toString ip else toString ip ++ "." ++ pad ++ fpStr

/-- Floor of a nonnegative rational as a natural number. -/
def floorNatNonneg (q : ℚ) : ℕ := q.num.toNat / q.den

/-- Round a nonnegative rational to the nearest natural number, ties to even,
which is the rounding Python %.Nf formatting applies (the Python formatting
rounds the binary float; on every value the claims evaluate, the float is
exactly the rational, so the two agree). -/
def roundHalfEvenNat (q : ℚ) : ℕ :=
  let f := floorNatNonneg q
  let r := q - (f : ℚ)
  if r < 1 / 2 then f
  else if 1 / 2 < r then f + 1
  else if f % 2 = 0 then f else f + 1

/-- Embedding of the Python format spec .df applied to a rational value:
two-decimal rendering is formatFixed 2, one-decimal is formatFixed 1. -/
def formatFixed (d : ℕ) (q : ℚ) : String :=
  if q < 0 then "-" ++ natFixedString d (roundHalfEvenNat (-q * 10 ^ d))
  else natFixedString d (roundHalfEvenNat (q * 10 ^ d))

/-- Loop body of get_size_gb: iterate over the unit list, returning at the
first unit where the running value is below 1024, dividing by 1024 otherwise;
after the list is exhausted the value (divided once more) is rendered with P. -/
def get_size_gb_go : List String → ℚ → String → String
  | [], bytes_val, sfx => formatFixed 2 bytes_val ++ "P" ++ sfx
  | u :: rest, bytes_val, sfx =>
    if bytes_val < 1024 then formatFixed 2 bytes_val ++ u ++ sfx
    else get_size_gb_go rest (bytes_val / 1024) sfx

/-- Embedding of get_size_gb (systemcheck.py lines 35-46), the byte-scaling
formatter.  The script always calls it with the default suffix B. -/
def get_size_gb (bytes_val : ℚ) (sfx : String) : String :=
  get_size_gb_go ["", "K", "M", "G", "T", "P"] bytes_val sfx

/-- Unit written at position i of the unit list of get_size_gb. -/
def unitAt : ℕ → String
  | 0 => ""
  | 1 => "K"
  | 2 => "M"
  | 3 => "G"
  | 4 => "T"
  | _ => "P"

/-- Sensor type as inspected by get_temperatures_lhm: the script only
distinguishes temperature sensors from everything else. -/
inductive SensorType where
  | temperature
  | other
deriving DecidableEq

/-- One LibreHardwareMonitor sensor: type, name, and value, where value is
none when sensor.Value is None (and would otherwise be a finite float). -/
structure Sensor where
  sensorType : SensorType
  name : String
  value : Option ℚ

/-- One LibreHardwareMonitor hardware item: its name and its sensors. -/
structure HardwareItem where
  name : String
  sensors : List Sensor

/-- Entry appended to a group by get_temperatures_lhm: label and current,
where current = none models the float nan substituted for an absent value. -/
structure TempEntry where
  label : String
  current : Option ℚ

/-- Per-item collection step of get_temperatures_lhm (lines 107-114): every
temperature-type sensor contributes one entry, with nan (here none) standing
in for an absent value. -/
def collectGroupTemps (item : HardwareItem) : List TempEntry :=
  (item.sensors.filter fun s => decide (s.sensorType = SensorType.temperature)).map
    fun s => TempEntry.mk s.name s.value

/-- Python dict assignment temps_data[group_name] = v on an association list:
replaces the value at an existing key, appends a new key at the end. -/
def dictInsert (k : String) (v : List TempEntry) :
    List (String × List TempEntry) → List (String × List TempEntry)
  | [] => [(k, v)]
  | p :: rest => if p.1 = k then (k, v) :: rest else p :: dictInsert k v rest

/-- Loop of get_temperatures_lhm over computer.Hardware (lines 103-116),
accumulating temps_data.  failIdx models an exception raised by
hardware_item.Update() while processing the item at that position; the
accumulator built so far is abandoned exactly as the except clause does. -/
def lhmCollect (failIdx : Option ℕ) :
    List HardwareItem → ℕ → List (String × List TempEntry) →
    Except String (List (String × List TempEntry))
  | [], _, acc => Except.ok acc
  | item :: rest, i, acc =>
    if failIdx = some i then Except.error "hardware item update failed"
    else
      let g := collectGroupTemps item
      lhmCollect failIdx rest (i + 1) (if g.isEmpty then acc else dictInsert item.name g acc)

/-- Embedding of get_temperatures_lhm (lines 82-120).  available and
storedError model the globals libre_hw_monitor_available and
libre_hw_monitor_error; openFails models an exception from Computer.Open();
failIdx and items model the backend enumeration.  Returns (temps_data,
error message or none), with every exception path returning the empty map. -/
def get_temperatures_lhm (available : Bool) (storedError : String)
    (openFails : Bool) (failIdx : Option ℕ) (items : List HardwareItem) :
    List (String × List TempEntry) × Option String :=
  if available = false then
    ([], some ("LibreHardwareMonitorLib not loaded. Stored error: " ++ storedError))
  else if openFails then
    ([], some "Error during LibreHardwareMonitor operation: Computer.Open failed")
  else
    match lhmCollect failIdx items 0 [] with
    | Except.ok temps_data => (temps_data, none)
    | Except.error e => ([], some ("Error during LibreHardwareMonitor operation: " ++ e))

/-- Validity filter applied per group in the render step (lines 197-198):
isinstance(current, float) and not isnan(current), which in this model is
exactly the presence of a rational value. -/
def validEntry (e : TempEntry) : Bool := e.current.isSome

/-- Value of the local lhm_reported_temps computed by display_system_stats
(lines 184-209) from the result of get_temperatures_lhm: false on an error
message, false when the map is empty or every group list is empty, and
otherwise true exactly when some group has an entry surviving the validity
filter (data_printed_for_lhm). -/
def lhmReported (r : List (String × List TempEntry) × Option String) : Bool :=
  match r.2 with
  | some _ => false
  | none =>
    if r.1.isEmpty || !(r.1.any fun g => !g.2.isEmpty) then false
    else r.1.any fun g => !g.2.isEmpty && !((g.2.filter validEntry).isEmpty)

/-- Observable outcome of the temperature section of one cycle: whether the
primary source was queried (the guarded call at line 187), whether the
primary render printed at least one group (State A success), and whether the
psutil fallback query at line 218 was reached. -/
structure TempCycleResult where
  lhmQueried : Bool
  lhmRendered : Bool
  fallbackQueried : Bool
deriving DecidableEq

/-- Temperature section of display_system_stats (lines 184-242): the primary
source runs only when the availability flag is set, and the fallback block
runs if and only if lhm_reported_temps remained false. -/
def displayTemps (available : Bool) (storedError : String) (openFails : Bool)
    (failIdx : Option ℕ) (items : List HardwareItem) : TempCycleResult :=
  if available then
    let b := lhmReported (get_temperatures_lhm available storedError openFails failIdx items)
    TempCycleResult.mk true b (!b)
  else
    TempCycleResult.mk false false true

/-- Outcome of psutil.disk_usage(path) for one configured path: a usage
snapshot, a FileNotFoundError, or any other exception with its message. -/
inductive DiskResult where
  | usage (total used free : ℕ) (percent : ℚ)
  | fileNotFound
  | otherError (msg : String)

/-- Lines printed for one configured disk path (lines 160-170): the usage
block on success, and the per-path inline error string on either exception. -/
def diskReportLines (disk_path : String) : DiskResult → List String
  | DiskResult.usage total used free percent =>
    ["  Disk (" ++ disk_path ++ "):",
     "    Total:     " ++ get_size_gb (total : ℚ) "B",
     "    Used:      " ++ get_size_gb (used : ℚ) "B" ++ " (" ++ formatFixed 1 percent ++ "%)",
     "    Free:      " ++ get_size_gb (free : ℚ) "B"]
  | DiskResult.fileNotFound =>
    ["  Disk (" ++ disk_path ++ "): Not found or inaccessible."]
  | DiskResult.otherError e =>
    ["  Disk (" ++ disk_path ++ "): Error - " ++ e]

/-- Disk section of display_system_stats: each configured path is queried and
reported independently, in order; an exception for one path is caught inside
the loop body and the loop continues with the next path. -/
def diskSection (query : String → DiskResult) : List String → List String
  | [] => []
  | p :: rest => diskReportLines p (query p) ++ diskSection query rest

/-- Environment one cycle of the loop observes: the disk query outcomes, the
psutil network sample and clock reading, and the LibreHardwareMonitor
enumeration with its failure points. -/
structure CycleInput where
  diskQuery : String → DiskResult
  netSample : NetCounters
  now : ℚ
  lhmOpenFails : Bool
  lhmFailIdx : Option ℕ
  lhmItems : List HardwareItem

/-- Process-lifetime mutable state: the availability flag and stored error
set once by the import guard (lines 8-20), and the network baseline. -/
structure MonitorState where
  libre_hw_monitor_available : Bool
  libre_hw_monitor_error : String
  net : NetState

/-- Observable output of one call to display_system_stats that the claims
talk about: the disk section lines, the network tuple, and the temperature
section outcome. -/
structure DisplayOutput where
  diskLines : List String
  netResult : ℚ × ℚ × ℕ × ℕ
  temps : TempCycleResult

/-- Embedding of display_system_stats (lines 124-247) restricted to the
state it mutates and the outputs the claims mention: it renders the disk
section, calls get_network_speed (updating the network baseline), and runs
the temperature section; the availability flag and stored error are read but
never written. -/
def display_system_stats (disks : List String) (st : MonitorState)
    (inp : CycleInput) : MonitorState × DisplayOutput :=
  let dl := diskSection inp.diskQuery disks
  let nr := get_network_speed st.net inp.netSample inp.now
  let t := displayTemps st.libre_hw_monitor_available st.libre_hw_monitor_error
    inp.lhmOpenFails inp.lhmFailIdx inp.lhmItems
  (MonitorState.mk st.libre_hw_monitor_available st.libre_hw_monitor_error nr.2,
   DisplayOutput.mk dl nr.1 t)

/-- Main loop (lines 256-261): run display_system_stats once per cycle,
threading the process state, and record each cycle's temperature outcome. -/
def runCycles (disks : List String) :
    MonitorState → List CycleInput → MonitorState × List TempCycleResult
  | st, [] => (st, [])
  | st, inp :: rest =>
    let r := display_system_stats disks st inp
    let rr := runCycles disks r.1 rest
    (rr.1, r.2.temps :: rr.2)

/-- Import-time initialisation (lines 8-20): on a successful import the flag
is true and the stored error is None (printed as the string None), while on
a failed import the flag is false and str(e) is stored.  This happens
exactly once, before the loop starts. -/
def initialState : Except String Unit → NetState → MonitorState
  | Except.ok _, n => MonitorState.mk true "None" n
  | Except.error e, n => MonitorState.mk false e n

lemma roundHalfEvenNat_natCast (n : ℕ) : roundHalfEvenNat ((n : ℕ) : ℚ) = n := by
  unfold roundHalfEvenNat floorNatNonneg
  simp

lemma formatFixed_nonneg (d : ℕ) (q : ℚ) (n : ℕ) (h0 : 0 ≤ q)
    (h : q * 10 ^ d = ((n : ℕ) : ℚ)) : formatFixed d q = natFixedString d n := by
  unfold formatFixed
  rw [if_neg (not_lt.mpr h0), h, roundHalfEvenNat_natCast]

lemma gsg_go_nil (b : ℚ) (s : String) :
    get_size_gb_go [] b s = formatFixed 2 b ++ "P" ++ s := rfl

lemma gsg_go_stop (u : String) (rest : List String) (b : ℚ) (s : String)
    (h : b < 1024) :
    get_size_gb_go (u :: rest) b s = formatFixed 2 b ++ u ++ s := by
  simp only [get_size_gb_go]
  rw [if_pos h]

lemma gsg_go_step (u : String) (rest : List String) (b : ℚ) (s : String)
    (h : ¬ b < 1024) :
    get_size_gb_go (u :: rest) b s = get_size_gb_go rest (b / 1024) s := by
  simp only [get_size_gb_go]
  rw [if_neg h]

lemma div_pow_succ_1024 (x : ℚ) (k : ℕ) :
    x / 1024 ^ k / 1024 = x / 1024 ^ (k + 1) := by
  rw [div_div, ← pow_succ]

lemma div_pow_lt_1024 (x : ℚ) (k : ℕ) :
    x / 1024 ^ k < 1024 ↔ x < 1024 ^ (k + 1) := by
  rw [div_lt_iff₀ (by positivity), ← pow_succ']

lemma get_size_gb_eq_go (x : ℚ) (s : String) :
    get_size_gb x s = get_size_gb_go ["", "K", "M", "G", "T", "P"] (x / 1024 ^ 0) s := by
  rw [pow_zero, div_one]
  rfl

/-- The loop of get_size_gb returns at position i exactly when i is the least
index at which the running value has dropped below 1024. -/
lemma get_size_gb_select (x : ℚ) (s : String) (i : ℕ) (hi : i ≤ 5)
    (hlt : x < 1024 ^ (i + 1)) (hge : ∀ j, j < i → 1024 ^ (j + 1) ≤ x) :
    get_size_gb x s = formatFixed 2 (x / 1024 ^ i) ++ unitAt i ++ s := by
  have step : ∀ k, 1024 ^ (k + 1) ≤ x → ¬ x / 1024 ^ k < 1024 := by
    intro k hk
    rw [div_pow_lt_1024]
    exact not_lt.mpr hk
  interval_cases i
  · rw [get_size_gb_eq_go, gsg_go_stop _ _ _ _ ((div_pow_lt_1024 x 0).mpr hlt)]
    rfl
  · rw [get_size_gb_eq_go, gsg_go_step _ _ _ _ (step 0 (hge 0 (by norm_num))),
      div_pow_succ_1024, gsg_go_stop _ _ _ _ ((div_pow_lt_1024 x 1).mpr hlt)]
    rfl
  · rw [get_size_gb_eq_go, gsg_go_step _ _ _ _ (step 0 (hge 0 (by norm_num))),
      div_pow_succ_1024, gsg_go_step _ _ _ _ (step 1 (hge 1 (by norm_num))),
      div_pow_succ_1024, gsg_go_stop _ _ _ _ ((div_pow_lt_1024 x 2).mpr hlt)]
    rfl
  · rw [get_size_gb_eq_go, gsg_go_step _ _ _ _ (step 0 (hge 0 (by norm_num))),
      div_pow_succ_1024, gsg_go_step _ _ _ _ (step 1 (hge 1 (by norm_num))),
      div_pow_succ_1024, gsg_go_step _ _ _ _ (step 2 (hge 2 (by norm_num))),
      div_pow_succ_1024, gsg_go_stop _ _ _ _ ((div_pow_lt_1024 x 3).mpr hlt)]
    rfl
  · rw [get_size_gb_eq_go, gsg_go_step _ _ _ _ (step 0 (hge 0 (by norm_num))),
      div_pow_succ_1024, gsg_go_step _ _ _ _ (step 1 (hge 1 (by norm_num))),
      div_pow_succ_1024, gsg_go_step _ _ _ _ (step 2 (hge 2 (by norm_num))),
      div_pow_succ_1024, gsg_go_step _ _ _ _ (step 3 (hge 3 (by norm_num))),
      div_pow_succ_1024, gsg_go_stop _ _ _ _ ((div_pow_lt_1024 x 4).mpr hlt)]
    rfl
  · rw [get_size_gb_eq_go, gsg_go_step _ _ _ _ (step 0 (hge 0 (by norm_num))),
      div_pow_succ_1024, gsg_go_step _ _ _ _ (step 1 (hge 1 (by norm_num))),
      div_pow_succ_1024, gsg_go_step _ _ _ _ (step 2 (hge 2 (by norm_num))),
      div_pow_succ_1024, gsg_go_step _ _ _ _ (step 3 (hge 3 (by norm_num))),
      div_pow_succ_1024, gsg_go_step _ _ _ _ (step 4 (hge 4 (by norm_num))),
      div_pow_succ_1024, gsg_go_stop _ _ _ _ ((div_pow_lt_1024 x 5).mpr hlt)]
    rfl

/-- When even the value scaled to P is not below 1024, the loop falls
through, one further division happens, and the result is rendered with P at
the input divided by 1024 to the 6, not to the 5. -/
lemma get_size_gb_overflow (x : ℚ) (s : String) (h6 : (1024 : ℚ) ^ 6 ≤ x) :
    get_size_gb x s = formatFixed 2 (x / 1024 ^ 6) ++ "P" ++ s := by
  have hge : ∀ k : ℕ, k + 1 ≤ 6 → (1024 : ℚ) ^ (k + 1) ≤ x := by
    intro k hk
    calc (1024 : ℚ) ^ (k + 1) ≤ 1024 ^ 6 := by
          apply pow_le_pow_right₀ (by norm_num) hk
      _ ≤ x := h6
  have step : ∀ k, 1024 ^ (k + 1) ≤ x → ¬ x / 1024 ^ k < 1024 := by
    intro k hk
    rw [div_pow_lt_1024]
    exact not_lt.mpr hk
  rw [get_size_gb_eq_go, gsg_go_step _ _ _ _ (step 0 (hge 0 (by norm_num))),
    div_pow_succ_1024, gsg_go_step _ _ _ _ (step 1 (hge 1 (by norm_num))),
    div_pow_succ_1024, gsg_go_step _ _ _ _ (step 2 (hge 2 (by norm_num))),
    div_pow_succ_1024, gsg_go_step _ _ _ _ (step 3 (hge 3 (by norm_num))),
    div_pow_succ_1024, gsg_go_step _ _ _ _ (step 4 (hge 4 (by norm_num))),
    div_pow_succ_1024, gsg_go_step _ _ _ _ (step 5 (hge 5 (by norm_num))),
    div_pow_succ_1024, gsg_go_nil]

lemma gsg_val_zero : get_size_gb (0 : ℚ) "B" = "0.00B" := by
  rw [get_size_gb_select 0 "B" 0 (by norm_num) (by norm_num)
    (fun j hj => absurd hj (Nat.not_lt_zero j))]
  rw [show (0 : ℚ) / 1024 ^ 0 = 0 by norm_num]
  rw [formatFixed_nonneg 2 0 0 le_rfl (by norm_num)]
  rfl

lemma gsg_val_1536 : get_size_gb (1536 : ℚ) "B" = "1.50KB" := by
  rw [get_size_gb_select 1536 "B" 1 (by norm_num) (by norm_num)
    (by intro j hj; interval_cases j; norm_num)]
  rw [formatFixed_nonneg 2 ((1536 : ℚ) / 1024 ^ 1) 150 (by positivity) (by norm_num)]
  rfl

lemma gsg_val_tera : get_size_gb ((1024 : ℚ) ^ 4) "B" = "1.00TB" := by
  rw [get_size_gb_select (1024 ^ 4) "B" 4 (by norm_num) (by norm_num)
    (by intro j hj; interval_cases j <;> norm_num)]
  rw [formatFixed_nonneg 2 ((1024 : ℚ) ^ 4 / 1024 ^ 4) 100 (by positivity) (by norm_num)]
  rfl

lemma gsg_val_peta : get_size_gb ((1024 : ℚ) ^ 6) "B" = "1.00PB" := by
  rw [get_size_gb_overflow (1024 ^ 6) "B" le_rfl]
  rw [formatFixed_nonneg 2 ((1024 : ℚ) ^ 6 / 1024 ^ 6) 100 (by positivity) (by norm_num)]
  rfl

lemma lhm_fst_nil_of_error (a : Bool) (se : String) (oF : Bool) (fI : Option ℕ)
    (items : List HardwareItem)
    (h : (get_temperatures_lhm a se oF fI items).2 ≠ none) :
    (get_temperatures_lhm a se oF fI items).1 = [] := by
  cases a
  · rfl
  · cases oF
    · rcases hc : lhmCollect fI items 0 [] with e | d
      · simp [get_temperatures_lhm, hc]
      · exfalso
        apply h
        simp [get_temperatures_lhm, hc]
    · rfl

lemma lhmReported_some (d : List (String × List TempEntry)) (e : String) :
    lhmReported (d, some e) = false := rfl

lemma lhmReported_true_of_valid (d : List (String × List TempEntry))
    (h : ∃ g ∈ d, ∃ en ∈ g.2, en.current.isSome = true) :
    lhmReported (d, none) = true := by
  obtain ⟨g, hg, en, hen, hv⟩ := h
  have hgne : g.2 ≠ [] := by
    intro h0
    rw [h0] at hen
    exact List.not_mem_nil en hen
  have hdne : d ≠ [] := by
    intro h0
    rw [h0] at hg
    exact List.not_mem_nil g hg
  have hf : en ∈ g.2.filter validEntry :=
    List.mem_filter.mpr ⟨hen, hv⟩
  have hfne : g.2.filter validEntry ≠ [] := by
    intro h0
    rw [h0] at hf
    exact List.not_mem_nil en hf
  unfold lhmReported
  rw [if_neg]
  · refine List.any_eq_true.mpr ⟨g, hg, ?_⟩
    simp [List.isEmpty_iff, hgne, hfne]
  · have h1 : d.isEmpty = false := by simp [List.isEmpty_iff, hdne]
    have h2 : (d.any fun g => !g.2.isEmpty) = true :=
      List.any_eq_true.mpr ⟨g, hg, by simp [List.isEmpty_iff, hgne]⟩
    simp [h1, h2]

lemma lhmReported_false_of_allNone (d : List (String × List TempEntry))
    (h : ∀ g ∈ d, ∀ en ∈ g.2, en.current = none) :
    lhmReported (d, none) = false := by
  unfold lhmReported
  split_ifs with hc
  · rfl
  · rw [List.any_eq_false]
    intro g hg
    have hfil : g.2.filter validEntry = [] := by
      rw [List.filter_eq_nil_iff]
      intro en hen
      simp [validEntry, h g hg en hen]
    simp [hfil]

lemma displayTemps_true (se : String) (oF : Bool) (fI : Option ℕ)
    (items : List HardwareItem) :
    displayTemps true se oF fI items
      = TempCycleResult.mk true (lhmReported (get_temperatures_lhm true se oF fI items))
          (!(lhmReported (get_temperatures_lhm true se oF fI items))) := rfl

lemma displayTemps_false (se : String) (oF : Bool) (fI : Option ℕ)
    (items : List HardwareItem) :
    displayTemps false se oF fI items = TempCycleResult.mk false false true := rfl

lemma display_state_avail (disks : List String) (st : MonitorState) (inp : CycleInput) :
    (display_system_stats disks st inp).1.libre_hw_monitor_available
      = st.libre_hw_monitor_available := rfl

lemma display_state_err (disks : List String) (st : MonitorState) (inp : CycleInput) :
    (display_system_stats disks st inp).1.libre_hw_monitor_error
      = st.libre_hw_monitor_error := rfl

lemma display_temps_eq (disks : List String) (st : MonitorState) (inp : CycleInput) :
    (display_system_stats disks st inp).2.temps
      = displayTemps st.libre_hw_monitor_available st.libre_hw_monitor_error
          inp.lhmOpenFails inp.lhmFailIdx inp.lhmItems := rfl

lemma runCycles_avail (disks : List String) (st : MonitorState)
    (ins : List CycleInput) :
    (runCycles disks st ins).1.libre_hw_monitor_available
      = st.libre_hw_monitor_available := by
  induction ins generalizing st with
  | nil => rfl
  | cons inp rest ih =>
    simp only [runCycles]
    rw [ih]
    rfl

lemma runCycles_skip (disks : List String) (st : MonitorState)
    (ins : List CycleInput) (h : st.libre_hw_monitor_available = false) :
    ∀ c ∈ (runCycles disks st ins).2,
      c.lhmQueried = false ∧ c.fallbackQueried = true := by
  induction ins generalizing st with
  | nil =>
    intro c hc
    simp [runCycles] at hc
  | cons inp rest ih =>
    intro c hc
    simp only [runCycles, List.mem_cons] at hc
    rcases hc with hc | hc
    · subst hc
      rw [display_temps_eq, h, displayTemps_false]
      exact ⟨rfl, rfl⟩
    · exact ih (display_system_stats disks st inp).1 (by rw [display_state_avail]; exact h) c hc

/-- C1: with baseline (sent=1000, recv=2000, t=0) and sample
(sent=3000, recv=2500, t=2) the calculator returns upload 1000 B/s and
download 250 B/s with the current totals; and whenever the elapsed time is
zero the returned rates are exactly (0, 0) and the totals are the current
cumulative counters. -/
theorem network_rate_values_C1 :
    (get_network_speed (NetState.mk (NetCounters.mk 1000 2000) 0)
        (NetCounters.mk 3000 2500) 2).1 = (1000, 250, 3000, 2500)
    ∧ ∀ (st : NetState) (cur : NetCounters) (t : ℚ),
        t - st.last_time_net = 0 →
        (get_network_speed st cur t).1 = (0, 0, cur.bytes_sent, cur.bytes_recv) := by
  constructor
  · norm_num [get_network_speed]
  · intro st cur t h
    simp [get_network_speed, h]

/-- Witness for C1 at a concrete zero-elapsed call. -/
theorem network_rate_values_C1_witness :
    (get_network_speed (NetState.mk (NetCounters.mk 5 7) 3)
        (NetCounters.mk 9 11) 3).1 = (0, 0, 9, 11) :=
  network_rate_values_C1.2 (NetState.mk (NetCounters.mk 5 7) 3)
    (NetCounters.mk 9 11) 3 (by norm_num)

/-- C4: the byte formatter satisfies format(0) = 0.00B,
format(1536) = 1.50KB and format(1024 to the 4) = 1.00TB. -/
theorem size_format_examples_C4 :
    get_size_gb (0 : ℚ) "B" = "0.00B"
    ∧ get_size_gb (1536 : ℚ) "B" = "1.50KB"
    ∧ get_size_gb ((1024 : ℚ) ^ 4) "B" = "1.00TB" :=
  ⟨gsg_val_zero, gsg_val_1536, gsg_val_tera⟩

/-- C5: on every call with nonzero elapsed time, the stored baseline is
overwritten with the current counters and the current timestamp. -/
theorem baseline_overwrite_C5 (st : NetState) (cur : NetCounters) (t : ℚ)
    (h : t - st.last_time_net ≠ 0) :
    (get_network_speed st cur t).2 = NetState.mk cur t := by
  simp [get_network_speed, h]

/-- Witness for C5 at a concrete call with elapsed time 1. -/
theorem baseline_overwrite_C5_witness :
    (get_network_speed (NetState.mk (NetCounters.mk 0 0) 0)
        (NetCounters.mk 1 2) 1).2 = NetState.mk (NetCounters.mk 1 2) 1 :=
  baseline_overwrite_C5 (NetState.mk (NetCounters.mk 0 0) 0)
    (NetCounters.mk 1 2) 1 (by norm_num)

/-- C6: with positive elapsed time and a current counter strictly below the
stored baseline counter, the returned rate is the negative quotient
(current minus last) over elapsed, not zero: the code does not clamp. -/
theorem negative_delta_unclamped_C6 (st : NetState) (cur : NetCounters) (t : ℚ)
    (h : 0 < t - st.last_time_net) :
    (cur.bytes_sent < st.last_net_io.bytes_sent →
        (get_network_speed st cur t).1.1
          = ((cur.bytes_sent : ℚ) - (st.last_net_io.bytes_sent : ℚ))
              / (t - st.last_time_net)
        ∧ (get_network_speed st cur t).1.1 < 0)
    ∧ (cur.bytes_recv < st.last_net_io.bytes_recv →
        (get_network_speed st cur t).1.2.1
          = ((cur.bytes_recv : ℚ) - (st.last_net_io.bytes_recv : ℚ))
              / (t - st.last_time_net)
        ∧ (get_network_speed st cur t).1.2.1 < 0) := by
  have hne : t - st.last_time_net ≠ 0 := ne_of_gt h
  have key : (get_network_speed st cur t).1
      = ((((cur.bytes_sent : ℤ) - (st.last_net_io.bytes_sent : ℤ) : ℤ) : ℚ)
            / (t - st.last_time_net),
         (((cur.bytes_recv : ℤ) - (st.last_net_io.bytes_recv : ℤ) : ℤ) : ℚ)
            / (t - st.last_time_net),
         cur.bytes_sent, cur.bytes_recv) := by
    simp [get_network_speed, hne]
  constructor
  · intro hlt
    constructor
    · rw [key]
      push_cast
      ring
    · rw [key]
      apply div_neg_of_neg_of_pos _ h
      have h1 : ((cur.bytes_sent : ℤ) - (st.last_net_io.bytes_sent : ℤ)) < 0 := by
        have : (cur.bytes_sent : ℤ) < (st.last_net_io.bytes_sent : ℤ) := by
          exact_mod_cast hlt
        omega
      exact_mod_cast h1
  · intro hlt
    constructor
    · rw [key]
      push_cast
      ring
    · rw [key]
      apply div_neg_of_neg_of_pos _ h
      have h1 : ((cur.bytes_recv : ℤ) - (st.last_net_io.bytes_recv : ℤ)) < 0 := by
        have : (cur.bytes_recv : ℤ) < (st.last_net_io.bytes_recv : ℤ) := by
          exact_mod_cast hlt
        omega
      exact_mod_cast h1

/-- Witness for C6: a counter reset from 10 to 4 over 2 seconds yields the
negative upload rate. -/
theorem negative_delta_unclamped_C6_witness :
    (get_network_speed (NetState.mk (NetCounters.mk 10 20) 0)
        (NetCounters.mk 4 5) 2).1.1
      = (((4 : ℕ) : ℚ) - ((10 : ℕ) : ℚ)) / ((2 : ℚ) - 0)
    ∧ (get_network_speed (NetState.mk (NetCounters.mk 10 20) 0)
        (NetCounters.mk 4 5) 2).1.1 < 0 :=
  (negative_delta_unclamped_C6 (NetState.mk (NetCounters.mk 10 20) 0)
    (NetCounters.mk 4 5) 2 (by norm_num)).1 (by norm_num)

/-- C3 (amended): for every nonnegative input the chosen unit is the
smallest unit whose scaling brings the value strictly below 1024 (the least
index i with input below 1024 to the i plus 1), and when even the P scaling
does not drop below 1024 the loop falls through and renders P at the input
divided by 1024 to the 6 (one further division than the P position). -/
theorem size_unit_selection_C3 (x : ℚ) (hx : 0 ≤ x) :
    (∀ i : ℕ, i ≤ 5 → x < 1024 ^ (i + 1) → (∀ j, j < i → 1024 ^ (j + 1) ≤ x) →
        get_size_gb x "B" = formatFixed 2 (x / 1024 ^ i) ++ unitAt i ++ "B")
    ∧ ((1024 : ℚ) ^ 6 ≤ x →
        get_size_gb x "B" = formatFixed 2 (x / 1024 ^ 6) ++ "P" ++ "B") :=
  ⟨fun i hi hlt hge => get_size_gb_select x "B" i hi hlt hge,
   fun h6 => get_size_gb_overflow x "B" h6⟩

/-- Counterexample to C3 as stated: at input 1536 the code renders with K,
yet dividing by the factor of the strictly larger unit T also stays below
1024, so the chosen unit is not the largest unit whose scaled value is below
1024; and at input 1024 to the 6 the value printed under P is 1.00, which is
the input divided by 1024 to the 6, while the input divided by 1024 to the 5
is 1024. -/
theorem size_unit_selection_C3_counterexample :
    get_size_gb (1536 : ℚ) "B" = "1.50KB"
    ∧ (1536 : ℚ) / 1024 ^ 4 < 1024
    ∧ get_size_gb ((1024 : ℚ) ^ 6) "B" = "1.00PB"
    ∧ (1024 : ℚ) ^ 6 / 1024 ^ 5 = 1024 :=
  ⟨gsg_val_1536, by norm_num, gsg_val_peta, by norm_num⟩

/-- Witness for C3 at input 1536: the least index is 1, the unit is K. -/
theorem size_unit_selection_C3_witness :
    get_size_gb (1536 : ℚ) "B"
      = formatFixed 2 ((1536 : ℚ) / 1024 ^ 1) ++ unitAt 1 ++ "B" :=
  (size_unit_selection_C3 1536 (by norm_num)).1 1 (by norm_num) (by norm_num)
    (by intro j hj; interval_cases j; norm_num)

/-- C2: in one temperature cycle, a finite reading in any group of the
primary result suppresses the fallback; an all-NaN primary result leads to
the fallback being consulted; and the primary render success and the
fallback query never both happen in the same cycle. -/
theorem temperature_fallback_C2 (se : String) (oF : Bool) (fI : Option ℕ)
    (items : List HardwareItem) :
    ((∃ g ∈ (get_temperatures_lhm true se oF fI items).1,
        ∃ en ∈ g.2, en.current.isSome = true) →
      (displayTemps true se oF fI items).fallbackQueried = false)
    ∧ ((∀ g ∈ (get_temperatures_lhm true se oF fI items).1,
        ∀ en ∈ g.2, en.current = none) →
      (displayTemps true se oF fI items).fallbackQueried = true)
    ∧ ∀ a : Bool, ¬ ((displayTemps a se oF fI items).lhmRendered = true
        ∧ (displayTemps a se oF fI items).fallbackQueried = true) := by
  refine ⟨?_, ?_, ?_⟩
  · intro h
    have hne : (get_temperatures_lhm true se oF fI items).1 ≠ [] := by
      obtain ⟨g, hg, _⟩ := h
      intro h0
      rw [h0] at hg
      exact List.not_mem_nil g hg
    have h2 : (get_temperatures_lhm true se oF fI items).2 = none := by
      by_contra hx
      exact hne (lhm_fst_nil_of_error true se oF fI items hx)
    have hpair : get_temperatures_lhm true se oF fI items
        = ((get_temperatures_lhm true se oF fI items).1, none) := by
      rw [← h2]
    rw [displayTemps_true]
    show (!(lhmReported (get_temperatures_lhm true se oF fI items))) = false
    rw [hpair, lhmReported_true_of_valid _ h]
    rfl
  · intro h
    rcases h2 : (get_temperatures_lhm true se oF fI items).2 with _ | err
    · have hpair : get_temperatures_lhm true se oF fI items
          = ((get_temperatures_lhm true se oF fI items).1, none) := by
        rw [← h2]
      rw [displayTemps_true]
      show (!(lhmReported (get_temperatures_lhm true se oF fI items))) = true
      rw [hpair, lhmReported_false_of_allNone _ h]
      rfl
    · have hpair : get_temperatures_lhm true se oF fI items
          = ((get_temperatures_lhm true se oF fI items).1, some err) := by
        rw [← h2]
      rw [displayTemps_true]
      show (!(lhmReported (get_temperatures_lhm true se oF fI items))) = true
      rw [hpair, lhmReported_some]
      rfl
  · intro a
    cases a
    · rw [displayTemps_false]
      intro hcon
      exact absurd hcon.1 (by decide)
    · rw [displayTemps_true]
      intro hcon
      obtain ⟨h1, h2⟩ := hcon
      have hb1 : lhmReported (get_temperatures_lhm true se oF fI items) = true := h1
      have hb2 : (!(lhmReported (get_temperatures_lhm true se oF fI items))) = true := h2
      rw [hb1] at hb2
      exact absurd hb2 (by decide)

/-- Witness for C2: one CPU group with one finite reading suppresses the
fallback. -/
theorem temperature_fallback_C2_witness :
    (displayTemps true "None" false none
        [HardwareItem.mk "CPU"
          [Sensor.mk SensorType.temperature "Core 1" (some 42)]]).fallbackQueried
      = false :=
  (temperature_fallback_C2 "None" false none
      [HardwareItem.mk "CPU" [Sensor.mk SensorType.temperature "Core 1" (some 42)]]).1
    (by decide)

/-- C7: the availability flag fixed at import time is never modified by any
number of loop cycles, and when the backend failed to load, every cycle
skips the primary query and runs the fallback path. -/
theorem availability_flag_C7 (lr : Except String Unit) (net0 : NetState)
    (disks : List String) (ins : List CycleInput) :
    (runCycles disks (initialState lr net0) ins).1.libre_hw_monitor_available
      = (initialState lr net0).libre_hw_monitor_available
    ∧ ((initialState lr net0).libre_hw_monitor_available = false →
        ∀ c ∈ (runCycles disks (initialState lr net0) ins).2,
          c.lhmQueried = false ∧ c.fallbackQueried = true) :=
  ⟨runCycles_avail disks (initialState lr net0) ins,
   fun h => runCycles_skip disks (initialState lr net0) ins h⟩

/-- Witness for C7: after a failed import, the one recorded cycle neither
queried the primary source nor skipped the fallback. -/
theorem availability_flag_C7_witness :
    (displayTemps false "dll missing" false none []).lhmQueried = false
    ∧ (displayTemps false "dll missing" false none []).fallbackQueried = true :=
  (availability_flag_C7 (Except.error "dll missing")
      (NetState.mk (NetCounters.mk 0 0) 0) []
      [CycleInput.mk (fun _ => DiskResult.fileNotFound) (NetCounters.mk 0 0) 1
        false none []]).2
    rfl (displayTemps false "dll missing" false none []) (by decide)

/-- C8: every configured path appears in the disk section regardless of the
other paths, a failing path yields its inline per-path error line, and the
disk results influence neither the temperature section nor the state update
of the same cycle. -/
theorem disk_isolation_C8 (query : String → DiskResult) (paths : List String)
    (p : String) (hp : p ∈ paths) :
    (∃ pre post, diskSection query paths
        = pre ++ (diskReportLines p (query p) ++ post))
    ∧ diskReportLines p DiskResult.fileNotFound
        = ["  Disk (" ++ p ++ "): Not found or inaccessible."]
    ∧ ∀ (disks : List String) (st : MonitorState) (q2 : String → DiskResult)
        (ns : NetCounters) (t : ℚ) (oF : Bool) (fI : Option ℕ)
        (items : List HardwareItem),
        (display_system_stats disks st (CycleInput.mk query ns t oF fI items)).2.temps
          = (display_system_stats disks st (CycleInput.mk q2 ns t oF fI items)).2.temps
        ∧ (display_system_stats disks st (CycleInput.mk query ns t oF fI items)).1
          = (display_system_stats disks st (CycleInput.mk q2 ns t oF fI items)).1 := by
  refine ⟨?_, rfl, fun disks st q2 ns t oF fI items => ⟨rfl, rfl⟩⟩
  revert hp
  induction paths with
  | nil =>
    intro hp
    exact absurd hp (List.not_mem_nil p)
  | cons a rest ih =>
    intro hp
    rcases List.mem_cons.mp hp with h | h
    · subst h
      exact ⟨[], diskSection query rest, by simp [diskSection]⟩
    · obtain ⟨pre, post, he⟩ := ih h
      exact ⟨diskReportLines a (query a) ++ pre, post, by simp [diskSection, he]⟩

/-- Witness for C8 with two configured paths, the second of which fails. -/
theorem disk_isolation_C8_witness :
    diskReportLines "/mnt/data" DiskResult.fileNotFound
      = ["  Disk (/mnt/data): Not found or inaccessible."] :=
  (disk_isolation_C8 (fun _ => DiskResult.fileNotFound) ["/", "/mnt/data"]
      "/mnt/data" (by decide)).2.1

/-- C9: a temperature-type sensor with an absent value still contributes an
entry to its group, with current recorded as NaN (here none), rather than
being omitted. -/
theorem nan_entry_included_C9 (item : HardwareItem) (s : Sensor)
    (hs : s ∈ item.sensors) (ht : s.sensorType = SensorType.temperature)
    (hv : s.value = none) :
    TempEntry.mk s.name none ∈ collectGroupTemps item := by
  unfold collectGroupTemps
  refine List.mem_map.mpr ⟨s, List.mem_filter.mpr ⟨hs, ?_⟩, ?_⟩
  · simp [ht]
  · rw [hv]

/-- Witness for C9: a valueless temperature sensor appears in its group with
current = none. -/
theorem nan_entry_included_C9_witness :
    TempEntry.mk "Core 1" none ∈ collectGroupTemps
      (HardwareItem.mk "CPU" [Sensor.mk SensorType.temperature "Core 1" none]) :=
  nan_entry_included_C9
    (HardwareItem.mk "CPU" [Sensor.mk SensorType.temperature "Core 1" none])
    (Sensor.mk SensorType.temperature "Core 1" none) (by simp) rfl rfl

/-- C10: whenever the primary source query returns an error message, the
readings map it returns is empty: partial collections are discarded by the
except clause, never returned alongside an error. -/
theorem error_empty_result_C10 (a : Bool) (se : String) (oF : Bool)
    (fI : Option ℕ) (items : List HardwareItem)
    (h : (get_temperatures_lhm a se oF fI items).2 ≠ none) :
    (get_temperatures_lhm a se oF fI items).1 = [] :=
  lhm_fst_nil_of_error a se oF fI items h

/-- Witness for C10: an exception at the second hardware item discards the
group already collected from the first. -/
theorem error_empty_result_C10_witness :
    (get_temperatures_lhm true "None" false (some 1)
        [HardwareItem.mk "CPU" [Sensor.mk SensorType.temperature "Core 1" (some 42)],
         HardwareItem.mk "GPU" [Sensor.mk SensorType.temperature "GPU Core" (some 55)]]).1
      = [] :=
  error_empty_result_C10 true "None" false (some 1)
    [HardwareItem.mk "CPU" [Sensor.mk SensorType.temperature "Core 1" (some 42)],
     HardwareItem.mk "GPU" [Sensor.mk SensorType.temperature "GPU Core" (some 55)]]
    (by decide)
